import Mathlib

/-!
Verification development for the Klok-BOT automation orchestration core.

The definitions below are a shallow embedding of `src/automation.js`
(the run-state machine, the consecutive-failure circuit breaker and the
orchestration loop) and of `executeWithRetry` from the auth API module.
Impure JavaScript operations (HTTP requests, message generation, the
cooldown flag, `Math.random()`) are modelled as explicit oracle inputs:
an operation that may be invoked several times becomes a function from
the invocation index to its outcome, and one cycle of the automation
loop consumes a `CycleEnv` record holding the outcome of every external
call the cycle can make.  Machine numbers are `Nat` (no overflow is
reachable at these magnitudes) and the fractional retry multiplier is
modelled exactly in `ℚ`.
-/

/-- A JavaScript `Error` as the automation code observes it: the
`message` string and, for axios errors, the optional HTTP status of
`error.response`. -/
structure JsError where
  message : String
  responseStatus : Option Nat
deriving Repr, DecidableEq

/-- Substring test on character lists: does the second list start with
the first?  (Helper for modelling JavaScript `String.prototype.includes`.) -/
def startsWithChars : List Char → List Char → Bool
  | [], _ => true
  | _ :: _, [] => false
  | a :: as, b :: bs => a == b && startsWithChars as bs

/-- Does the second character list contain the first as a contiguous
run?  (Helper for modelling JavaScript `String.prototype.includes`.) -/
def includesChars : List Char → List Char → Bool
  | needle, [] => startsWithChars needle []
  | needle, b :: bs => startsWithChars needle (b :: bs) || includesChars needle bs

/-- JavaScript `msg.includes(sub)`. -/
def messageIncludes (msg sub : String) : Bool :=
  includesChars sub.toList msg.toList

/-- The network-error message test used identically in `startAutomation`,
the `automationLoop` catch block and `executeWithRetry`:
`error.message.includes("socket hang up") || ... includes("network") ||
... includes("timeout") || ... includes("ECONNREFUSED")`. -/
def isNetworkErrorMessage (e : JsError) : Bool :=
  messageIncludes e.message "socket hang up" ||
  messageIncludes e.message "network" ||
  messageIncludes e.message "timeout" ||
  messageIncludes e.message "ECONNREFUSED"

/-- `error.response && error.response.status >= 500`. -/
def isServerError (e : JsError) : Bool :=
  match e.responseStatus with
  | some s => decide (500 ≤ s)
  | none => false

/-- Transient classification: the disjunction the source checks before
retrying or applying the loop-level backoff ladder. -/
def isTransient (e : JsError) : Bool :=
  isNetworkErrorMessage e || isServerError e

/-- `const MAX_RETRIES = 5;` (api/auth.js). -/
def MAX_RETRIES : Nat := 5

/-- `const RETRY_DELAY_MS = 2000;` (api/auth.js). -/
def RETRY_DELAY_MS : ℚ := 2000

/-- `const RETRY_MULTIPLIER = 1.5;` (api/auth.js). -/
def RETRY_MULTIPLIER : ℚ := 3 / 2

/-- Observable behaviour of one `executeWithRetry` invocation: the final
outcome, how many times `requestFn` was invoked, and the list of delays
(in milliseconds) awaited between invocations, in order. -/
structure RetryTrace (α : Type) where
  result : Except JsError α
  calls : Nat
  delays : List ℚ
deriving Repr

/-- Recursion core of `executeWithRetry`.  `requestFn i` is the outcome
of the (i+1)-st invocation of the impure `requestFn` closure.  The JS
function recurses with `retryCount + 1` while `retryCount < MAX_RETRIES`;
`fuel` is the structural-recursion budget and the wrapper below always
supplies `fuel = MAX_RETRIES - retryCount`, under which the `fuel = 0`
equation coincides with the JS behaviour (the guard
`retryCount < MAX_RETRIES` is false exactly when the budget is spent). -/
def executeWithRetryGo (requestFn : Nat → Except JsError α) :
    Nat → Nat → Nat → RetryTrace α
  | 0, _, callIndex =>
    match requestFn callIndex with
    | Except.ok a => ⟨Except.ok a, 1, []⟩
    | Except.error e => ⟨Except.error e, 1, []⟩
  | fuel + 1, retryCount, callIndex =>
    match requestFn callIndex with
    | Except.ok a => ⟨Except.ok a, 1, []⟩
    | Except.error e =>
      if (isNetworkErrorMessage e || isServerError e) &&
          decide (retryCount < MAX_RETRIES) then
        let rest := executeWithRetryGo requestFn fuel (retryCount + 1) (callIndex + 1)
        ⟨rest.result, rest.calls + 1,
          (RETRY_DELAY_MS * RETRY_MULTIPLIER ^ retryCount) :: rest.delays⟩
      else
        ⟨Except.error e, 1, []⟩

/-- `async function executeWithRetry(requestFn, requestName, retryCount = 0)`
from api/auth.js.  On failure it classifies the error; a network-class
message or a status ≥ 500 with `retryCount < MAX_RETRIES` sleeps
`RETRY_DELAY_MS * RETRY_MULTIPLIER ** retryCount` ms and recurses with
`retryCount + 1`; otherwise the error is rethrown unchanged. -/
def executeWithRetry (requestFn : Nat → Except JsError α)
    (retryCount : Nat := 0) : RetryTrace α :=
  executeWithRetryGo requestFn (MAX_RETRIES - retryCount) retryCount 0

example :
    (executeWithRetry (fun _ => (Except.error ⟨"timeout", none⟩ : Except JsError Nat)) 0).calls = 6 := by
  decide

example :
    (executeWithRetry (fun _ => (Except.error ⟨"bad request", some 400⟩ : Except JsError Nat)) 0).calls = 1 := by
  decide

example :
    (executeWithRetry (fun i => if i = 0 then (Except.error ⟨"timeout", none⟩ : Except JsError Nat) else Except.ok 7) 0).delays = [2000] := by
  have h : messageIncludes "timeout" "timeout" = true := by decide
  norm_num [executeWithRetry, executeWithRetryGo, MAX_RETRIES, RETRY_DELAY_MS,
    RETRY_MULTIPLIER, isNetworkErrorMessage, isServerError, h]

/-- `const MAX_CONSECUTIVE_ERRORS = 3;` (automation.js). -/
def MAX_CONSECUTIVE_ERRORS : Nat := 3

/-- The module-level mutable state of automation.js that the claims are
about: `let isRunning = false;` and `let consecutiveErrors = 0;`. -/
structure AutomationState where
  isRunning : Bool
  consecutiveErrors : Nat
deriving Repr, DecidableEq

/-- Oracle inputs consumed by one cycle of `automationLoop`: the outcome
of every external call the cycle can make, in program order.  The two
display refreshes (`points.getUserPoints`, `rateLimit.getRateLimit`)
sit inside their own try/catch and are swallowed entirely; they are kept
here to record that the cycle makes those calls.  `random7000` models
`Math.floor(Math.random() * 7000)`, an integer in `[0, 7000)`. -/
structure CycleEnv where
  cooldownActive : Bool
  rateLimitAvailability : Except JsError Bool
  generateUserMessage : Except JsError String
  sendChatMessage : Except JsError Unit
  pointsRefresh : Except JsError Unit
  rateLimitRefresh : Except JsError Unit
  random7000 : Fin 7000

/-- What a cycle of `automationLoop` does about scheduling its successor. -/
inductive CycleOutcome where
  /-- `if (!isRunning) return;` — plain return, nothing rescheduled. -/
  | stoppedNoReschedule : CycleOutcome
  /-- `setTimeout(automationLoop, 1000)` while a cooldown is active. -/
  | recheckCooldown : Nat → CycleOutcome
  /-- `await rateLimit.startCooldown(...)` — the coordinator re-invokes
  the loop when the cooldown ends, if still running. -/
  | cooldownStarted : CycleOutcome
  /-- `setTimeout(automationLoop, delay)` at the end of a normal cycle. -/
  | nextCycleScheduled : Nat → CycleOutcome
  /-- `setTimeout(..., backoffTime)` from the catch block; the callback
  re-invokes the loop only if still running. -/
  | errorRetryScheduled : Nat → CycleOutcome
deriving Repr, DecidableEq

/-- Observable behaviour of one cycle: the automation state after the
cycle body, the scheduling outcome, whether `chat.sendChatMessage` was
invoked, and the synchronous sleeps awaited inside the cycle (ms). -/
structure CycleResult where
  state : AutomationState
  outcome : CycleOutcome
  chatSendAttempted : Bool
  sleepsMs : List Nat
deriving Repr, DecidableEq

/-- The catch block of `automationLoop` (automation.js lines 270-319):
increment `consecutiveErrors`; if the error is transient-classified,
apply the backoff ladder (180000 ms with a counter reset at or above
`MAX_CONSECUTIVE_ERRORS`, else 15000 ms when the counter exceeds 1, else
the initial 5000 ms); otherwise reschedule after a flat 15000 ms. -/
def automationLoopCatch (st : AutomationState) (e : JsError) : CycleResult :=
  let st1 : AutomationState := { st with consecutiveErrors := st.consecutiveErrors + 1 }
  if isNetworkErrorMessage e || isServerError e then
    if MAX_CONSECUTIVE_ERRORS ≤ st1.consecutiveErrors then
      { state := { st1 with consecutiveErrors := 0 },
        outcome := CycleOutcome.errorRetryScheduled 180000,
        chatSendAttempted := false, sleepsMs := [] }
    else if 1 < st1.consecutiveErrors then
      { state := st1, outcome := CycleOutcome.errorRetryScheduled 15000,
        chatSendAttempted := false, sleepsMs := [] }
    else
      { state := st1, outcome := CycleOutcome.errorRetryScheduled 5000,
        chatSendAttempted := false, sleepsMs := [] }
  else
    { state := st1, outcome := CycleOutcome.errorRetryScheduled 15000,
      chatSendAttempted := false, sleepsMs := [] }

/-- One cycle of `async function automationLoop()` (automation.js lines
167-320), following the source's control flow: return if not running;
re-poll in 1 s if a cooldown is active; check rate-limit availability
(entering the cooldown coordinator when exhausted); generate a message,
then `consecutiveErrors = 0;` (line 200); send the message in an inner
try/catch whose error path increments the counter and sleeps 180 s with
a reset at the threshold, else 10 s; refresh displays (errors swallowed);
schedule the next cycle after `Math.floor(Math.random()*7000) + 3000` ms.
Errors escaping the pre-send steps fall to `automationLoopCatch`. -/
def automationLoopCycle (st : AutomationState) (env : CycleEnv) : CycleResult :=
  if st.isRunning = false then
    { state := st, outcome := CycleOutcome.stoppedNoReschedule,
      chatSendAttempted := false, sleepsMs := [] }
  else if env.cooldownActive then
    { state := st, outcome := CycleOutcome.recheckCooldown 1000,
      chatSendAttempted := false, sleepsMs := [] }
  else
    match env.rateLimitAvailability with
    | Except.error e => automationLoopCatch st e
    | Except.ok available =>
      if available = false then
        { state := st, outcome := CycleOutcome.cooldownStarted,
          chatSendAttempted := false, sleepsMs := [] }
      else
        match env.generateUserMessage with
        | Except.error e => automationLoopCatch st e
        | Except.ok _ =>
          let st1 : AutomationState := { st with consecutiveErrors := 0 }
          match env.sendChatMessage with
          | Except.ok _ =>
            { state := { st1 with consecutiveErrors := 0 },
              outcome := CycleOutcome.nextCycleScheduled (env.random7000.val + 3000),
              chatSendAttempted := true, sleepsMs := [] }
          | Except.error _ =>
            let st2 : AutomationState :=
              { st1 with consecutiveErrors := st1.consecutiveErrors + 1 }
            if MAX_CONSECUTIVE_ERRORS ≤ st2.consecutiveErrors then
              { state := { st2 with consecutiveErrors := 0 },
                outcome := CycleOutcome.nextCycleScheduled (env.random7000.val + 3000),
                chatSendAttempted := true, sleepsMs := [180000] }
            else
              { state := st2,
                outcome := CycleOutcome.nextCycleScheduled (env.random7000.val + 3000),
                chatSendAttempted := true, sleepsMs := [10000] }

/-- Run a sequence of loop cycles, threading the automation state. -/
def runTrace (st : AutomationState) : List CycleEnv → AutomationState
  | [] => st
  | env :: rest => runTrace (automationLoopCycle st env).state rest

/-- Severity levels of the `log(message, level)` calls in automation.js. -/
inductive LogLevel where
  | info : LogLevel
  | success : LogLevel
  | warning : LogLevel
  | error : LogLevel
deriving Repr, DecidableEq

/-- Outcome of the startup sequence inside `startAutomation`'s try block
(`auth.login()` through `chat.createThread()`): `ok` when every awaited
step succeeds, otherwise the first error thrown. -/
structure StartEnv where
  startupResult : Except JsError Unit

/-- Observable behaviour of one control operation (`startAutomation`,
`pauseAutomation`, `resumeAutomation`): the state it leaves behind,
whether it invoked `automationLoop()`, the levels of the `log(...)`
calls it made in order, and whether it scheduled the one-shot 10-second
auto-restart timer. -/
structure ControlResult where
  state : AutomationState
  loopStarted : Bool
  logLevels : List LogLevel
  autoRestartScheduled : Bool
deriving Repr, DecidableEq

/-- `async function startAutomation()` (automation.js lines 47-121).
Already running: log a warning and return.  Otherwise set
`isRunning = true; consecutiveErrors = 0;`, run the startup sequence and
enter `automationLoop()`;  on a startup error set `isRunning = false`,
log the error and, when the error is transient-classified, schedule the
10-second auto-restart. -/
def startAutomation (st : AutomationState) (env : StartEnv) : ControlResult :=
  if st.isRunning then
    { state := st, loopStarted := false,
      logLevels := [LogLevel.warning], autoRestartScheduled := false }
  else
    match env.startupResult with
    | Except.ok _ =>
      { state := { isRunning := true, consecutiveErrors := 0 },
        loopStarted := true, logLevels := [LogLevel.info],
        autoRestartScheduled := false }
    | Except.error e =>
      if isNetworkErrorMessage e || isServerError e then
        { state := { isRunning := false, consecutiveErrors := 0 },
          loopStarted := false,
          logLevels := [LogLevel.info, LogLevel.error, LogLevel.info],
          autoRestartScheduled := true }
      else
        { state := { isRunning := false, consecutiveErrors := 0 },
          loopStarted := false, logLevels := [LogLevel.info, LogLevel.error],
          autoRestartScheduled := false }

/-- `function pauseAutomation()` (automation.js lines 126-137): warn if
not running, otherwise clear `isRunning` (the consecutive-error counter
is untouched). -/
def pauseAutomation (st : AutomationState) : ControlResult :=
  if st.isRunning = false then
    { state := st, loopStarted := false,
      logLevels := [LogLevel.warning], autoRestartScheduled := false }
  else
    { state := { st with isRunning := false }, loopStarted := false,
      logLevels := [LogLevel.warning], autoRestartScheduled := false }

/-- `function resumeAutomation()` (automation.js lines 142-162): warn and
return if already running; warn and return if
`rateLimit.isCooldownActive()`; otherwise set `isRunning = true;
consecutiveErrors = 0;` and re-enter `automationLoop()`. -/
def resumeAutomation (st : AutomationState) (cooldownActive : Bool) : ControlResult :=
  if st.isRunning then
    { state := st, loopStarted := false,
      logLevels := [LogLevel.warning], autoRestartScheduled := false }
  else if cooldownActive then
    { state := st, loopStarted := false,
      logLevels := [LogLevel.warning], autoRestartScheduled := false }
  else
    { state := { isRunning := true, consecutiveErrors := 0 },
      loopStarted := true, logLevels := [LogLevel.success],
      autoRestartScheduled := false }

/-- The delay sequence (`RETRY_DELAY_MS * RETRY_MULTIPLIER ^ i` for the
successive retry counters) awaited across `k` consecutive transient
failures starting from retry counter `rc`. -/
def expectedDelays (rc : Nat) : Nat → List ℚ
  | 0 => []
  | k + 1 => (RETRY_DELAY_MS * RETRY_MULTIPLIER ^ rc) :: expectedDelays (rc + 1) k

theorem expectedDelays_length : ∀ k rc, (expectedDelays rc k).length = k := by
  intro k
  induction k with
  | zero => intro rc; simp [expectedDelays]
  | succ k ih => intro rc; simp [expectedDelays, ih]

theorem expectedDelays_getElem :
    ∀ k rc j, j < k →
      (expectedDelays rc k)[j]? = some (RETRY_DELAY_MS * RETRY_MULTIPLIER ^ (rc + j)) := by
  intro k
  induction k with
  | zero => intro rc j hj; omega
  | succ k ih =>
    intro rc j hj
    cases j with
    | zero => simp [expectedDelays]
    | succ j =>
      have h1 : rc + 1 + j = rc + (j + 1) := by omega
      simpa [expectedDelays, h1] using ih (rc + 1) j (by omega)

theorem executeWithRetryGo_ok (requestFn : Nat → Except JsError α) (a : α) :
    ∀ k fuel rc j, k ≤ fuel → rc + fuel = MAX_RETRIES →
      (∀ i, i < k → ∃ e, requestFn (j + i) = Except.error e ∧ isTransient e = true) →
      requestFn (j + k) = Except.ok a →
      executeWithRetryGo requestFn fuel rc j =
        ⟨Except.ok a, k + 1, expectedDelays rc k⟩ := by
  intro k
  induction k with
  | zero =>
    intro fuel rc j _ _ _ hok
    rw [Nat.add_zero] at hok
    cases fuel with
    | zero => simp [executeWithRetryGo, hok, expectedDelays]
    | succ fuel => simp [executeWithRetryGo, hok, expectedDelays]
  | succ k ih =>
    intro fuel rc j hk hrc hfail hok
    obtain ⟨fuel, rfl⟩ : ∃ f, fuel = f + 1 := ⟨fuel - 1, by omega⟩
    obtain ⟨e, he, het⟩ := hfail 0 (Nat.succ_pos k)
    rw [Nat.add_zero] at he
    have hlt : rc < MAX_RETRIES := by omega
    have hguard : ((isNetworkErrorMessage e || isServerError e) &&
        decide (rc < MAX_RETRIES)) = true := by
      rw [isTransient] at het
      simp [het, hlt]
    have hfail' : ∀ i, i < k →
        ∃ e, requestFn (j + 1 + i) = Except.error e ∧ isTransient e = true := by
      intro i hi
      have h1 : j + 1 + i = j + (i + 1) := by omega
      rw [h1]
      exact hfail (i + 1) (by omega)
    have hok' : requestFn (j + 1 + k) = Except.ok a := by
      have h1 : j + 1 + k = j + (k + 1) := by omega
      rw [h1]; exact hok
    have hrest := ih fuel (rc + 1) (j + 1) (by omega) (by omega) hfail' hok'
    simp [executeWithRetryGo, he, hguard, hrest, expectedDelays]

theorem executeWithRetryGo_err (requestFn : Nat → Except JsError α) :
    ∀ fuel rc j, rc + fuel = MAX_RETRIES →
      (∀ i, i ≤ fuel → ∃ e, requestFn (j + i) = Except.error e ∧ isTransient e = true) →
      executeWithRetryGo requestFn fuel rc j =
        ⟨requestFn (j + fuel), fuel + 1, expectedDelays rc fuel⟩ := by
  intro fuel
  induction fuel with
  | zero =>
    intro rc j _ hfail
    obtain ⟨e, he, _⟩ := hfail 0 (Nat.zero_le 0)
    rw [Nat.add_zero] at he ⊢
    simp [executeWithRetryGo, he, expectedDelays]
  | succ fuel ih =>
    intro rc j hrc hfail
    obtain ⟨e, he, het⟩ := hfail 0 (Nat.zero_le _)
    rw [Nat.add_zero] at he
    have hlt : rc < MAX_RETRIES := by omega
    have hguard : ((isNetworkErrorMessage e || isServerError e) &&
        decide (rc < MAX_RETRIES)) = true := by
      rw [isTransient] at het
      simp [het, hlt]
    have hfail' : ∀ i, i ≤ fuel →
        ∃ e, requestFn (j + 1 + i) = Except.error e ∧ isTransient e = true := by
      intro i hi
      have h1 : j + 1 + i = j + (i + 1) := by omega
      rw [h1]
      exact hfail (i + 1) (by omega)
    have hrest := ih (rc + 1) (j + 1) (by omega) hfail'
    have h2 : j + 1 + fuel = j + (fuel + 1) := by omega
    rw [h2] at hrest
    simp [executeWithRetryGo, he, hguard, hrest, expectedDelays]

theorem executeWithRetryGo_terminal (requestFn : Nat → Except JsError α) (e : JsError) :
    ∀ fuel rc j, requestFn j = Except.error e → isTransient e = false →
      executeWithRetryGo requestFn fuel rc j = ⟨Except.error e, 1, []⟩ := by
  intro fuel rc j he het
  rw [isTransient, Bool.or_eq_false_iff] at het
  cases fuel with
  | zero => simp [executeWithRetryGo, he]
  | succ fuel => simp [executeWithRetryGo, he, het.1, het.2]

/-- A remote operation whose every invocation fails with a
transient-classified error (`"timeout"` message, no response). -/
def alwaysTimeoutFn : Nat → Except JsError Nat :=
  fun _ => Except.error ⟨"timeout", none⟩

/-- A remote operation that fails transiently on its first invocation
and succeeds from the second on. -/
def failOnceFn : Nat → Except JsError Nat :=
  fun i => if i = 0 then Except.error ⟨"timeout", none⟩ else Except.ok 42

/-- A remote operation that fails transiently on its first two
invocations and succeeds from the third on. -/
def failTwiceFn : Nat → Except JsError Nat :=
  fun i => if i ≤ 1 then Except.error ⟨"timeout", none⟩ else Except.ok 7

/-- Claim C3 counterexample: for an operation all of whose failures are
transient-classified and which never succeeds, `executeWithRetry`
invokes the operation 6 times (the initial attempt plus
`MAX_RETRIES = 5` retries), so the invocation count cannot equal
`min 5 attemptsUntilSuccess` for any value of `attemptsUntilSuccess`. -/
theorem claim_C3_counterexample :
    (executeWithRetry alwaysTimeoutFn 0).calls = 6 ∧
    ∀ attemptsUntilSuccess : Nat,
      min 5 attemptsUntilSuccess ≠ (executeWithRetry alwaysTimeoutFn 0).calls := by
  have h : (executeWithRetry alwaysTimeoutFn 0).calls = 6 := by decide
  refine ⟨h, ?_⟩
  intro n
  rw [h]
  have := Nat.min_le_left 5 n
  omega

/-- Claim C3 (amended): for every operation all of whose failures are
transient-classified, `executeWithRetry` invokes the operation exactly
`min (MAX_RETRIES + 1) attemptsUntilSuccess` times — the cap is 6
invocations (1 initial + 5 retries), not 5 — and when all
`MAX_RETRIES + 1` attempts fail, the error of the last attempt
propagates to the caller. -/
theorem claim_C3_retry_call_count {α : Type} (requestFn : Nat → Except JsError α) :
    (∀ k a, k ≤ MAX_RETRIES →
      (∀ i, i < k → ∃ e, requestFn i = Except.error e ∧ isTransient e = true) →
      requestFn k = Except.ok a →
      (executeWithRetry requestFn 0).calls = min (MAX_RETRIES + 1) (k + 1) ∧
      (executeWithRetry requestFn 0).result = Except.ok a) ∧
    ((∀ i, i ≤ MAX_RETRIES → ∃ e, requestFn i = Except.error e ∧ isTransient e = true) →
      (executeWithRetry requestFn 0).calls = MAX_RETRIES + 1 ∧
      (executeWithRetry requestFn 0).result = requestFn MAX_RETRIES) := by
  constructor
  · intro k a hk hfail hok
    have h := executeWithRetryGo_ok requestFn a k MAX_RETRIES 0 0 hk (by omega)
      (by intro i hi; simpa using hfail i hi) (by simpa using hok)
    rw [executeWithRetry, Nat.sub_zero, h]
    refine ⟨?_, rfl⟩
    show k + 1 = min (MAX_RETRIES + 1) (k + 1)
    rw [MAX_RETRIES] at hk ⊢
    omega
  · intro hfail
    have h := executeWithRetryGo_err requestFn MAX_RETRIES 0 0 (by omega)
      (by intro i hi; simpa using hfail i hi)
    rw [executeWithRetry, Nat.sub_zero, h]
    exact ⟨rfl, by simp⟩

/-- Claim C3 witness: an operation that fails transiently once and then
succeeds is invoked `min (MAX_RETRIES + 1) 2 = 2` times and returns the
success value. -/
theorem claim_C3_witness :
    (executeWithRetry failOnceFn 0).calls = min (MAX_RETRIES + 1) (1 + 1) ∧
    (executeWithRetry failOnceFn 0).result = Except.ok 42 :=
  (claim_C3_retry_call_count failOnceFn).1 1 42 (by decide)
    (by
      intro i hi
      have h0 : i = 0 := by omega
      subst h0
      exact ⟨⟨"timeout", none⟩, rfl, by decide⟩)
    rfl

/-- Claim C4 (confirmed): when the first invocation fails with an error
that is neither a network-class message nor a status ≥ 500,
`executeWithRetry` makes exactly one call, awaits no delay, and
propagates that very error unmodified. -/
theorem claim_C4_terminal_single_call {α : Type} (requestFn : Nat → Except JsError α)
    (e : JsError) (hfail : requestFn 0 = Except.error e)
    (hterm : isTransient e = false) :
    (executeWithRetry requestFn 0).result = Except.error e ∧
    (executeWithRetry requestFn 0).calls = 1 ∧
    (executeWithRetry requestFn 0).delays = [] := by
  have h := executeWithRetryGo_terminal requestFn e (MAX_RETRIES - 0) 0 0 hfail hterm
  rw [executeWithRetry, h]
  exact ⟨rfl, rfl, rfl⟩

/-- The terminal error thrown by `getAuthHeaders` when no session token
is loaded. -/
def notAuthenticatedErr : JsError :=
  ⟨"Not authenticated. Please login first.", none⟩

/-- An operation that always fails with the terminal
`notAuthenticatedErr`. -/
def alwaysAuthFailFn : Nat → Except JsError Nat :=
  fun _ => Except.error notAuthenticatedErr

/-- Claim C4 witness: the terminal authentication error is propagated
after a single call with no delay. -/
theorem claim_C4_witness :
    (executeWithRetry alwaysAuthFailFn 0).result = Except.error notAuthenticatedErr ∧
    (executeWithRetry alwaysAuthFailFn 0).calls = 1 ∧
    (executeWithRetry alwaysAuthFailFn 0).delays = [] :=
  claim_C4_terminal_single_call alwaysAuthFailFn notAuthenticatedErr rfl (by decide)

/-- Claim C5 counterexample: for an operation that fails transiently on
attempts 1 and 2, the delay awaited before attempt 2 is 2000 ms, whereas
the claimed formula `2000 * 1.5 ^ (k - 1)` at `k = 2` gives 3000 ms. -/
theorem claim_C5_counterexample :
    (executeWithRetry failTwiceFn 0).delays[0]? = some 2000 ∧
    (2000 : ℚ) ≠ RETRY_DELAY_MS * RETRY_MULTIPLIER ^ (2 - 1) := by
  have h := executeWithRetryGo_ok failTwiceFn 7 2 MAX_RETRIES 0 0 (by decide) (by omega)
    (by
      intro i hi
      have h1 : i ≤ 1 := by omega
      exact ⟨⟨"timeout", none⟩, by simp [failTwiceFn, h1], by decide⟩)
    rfl
  rw [executeWithRetry, Nat.sub_zero, h]
  constructor
  · norm_num [expectedDelays, RETRY_DELAY_MS, RETRY_MULTIPLIER]
  · norm_num [RETRY_DELAY_MS, RETRY_MULTIPLIER]

/-- Claim C5 (amended): for a transiently failing operation whose first
success is attempt `k + 1`, attempt 1 is made with no prior delay and
the list of inter-attempt delays has length `k`; its entry of index `j`
(the delay awaited before attempt `j + 2`) is
`RETRY_DELAY_MS * RETRY_MULTIPLIER ^ j` ms — that is, the delay before
attempt `k` (`k ≥ 2`) is `2000 * 1.5 ^ (k - 2)` ms, one multiplier step
earlier than the claimed `2000 * 1.5 ^ (k - 1)`. -/
theorem claim_C5_retry_delay_schedule {α : Type} (requestFn : Nat → Except JsError α)
    (k : Nat) (a : α) (hk : k ≤ MAX_RETRIES)
    (hfail : ∀ i, i < k → ∃ e, requestFn i = Except.error e ∧ isTransient e = true)
    (hok : requestFn k = Except.ok a) :
    (executeWithRetry requestFn 0).delays.length = k ∧
    ∀ j, j < k → (executeWithRetry requestFn 0).delays[j]? =
      some (RETRY_DELAY_MS * RETRY_MULTIPLIER ^ j) := by
  have h := executeWithRetryGo_ok requestFn a k MAX_RETRIES 0 0 hk (by omega)
    (by intro i hi; simpa using hfail i hi) (by simpa using hok)
  rw [executeWithRetry, Nat.sub_zero, h]
  constructor
  · exact expectedDelays_length k 0
  · intro j hj
    simpa using expectedDelays_getElem k 0 j hj

/-- Claim C5 witness: the once-failing operation awaits exactly one
delay, namely `RETRY_DELAY_MS * RETRY_MULTIPLIER ^ 0` before attempt 2. -/
theorem claim_C5_witness :
    (executeWithRetry failOnceFn 0).delays.length = 1 ∧
    ∀ j, j < 1 → (executeWithRetry failOnceFn 0).delays[j]? =
      some (RETRY_DELAY_MS * RETRY_MULTIPLIER ^ j) :=
  claim_C5_retry_delay_schedule failOnceFn 1 42 (by decide)
    (by
      intro i hi
      have h0 : i = 0 := by omega
      subst h0
      exact ⟨⟨"timeout", none⟩, rfl, by decide⟩)
    rfl

/-- All loop-level errors a cycle environment can throw (from the
rate-limit availability check or message generation, the two awaited
steps outside every try/catch) are transient-classified. -/
def envLoopErrorsTransient (env : CycleEnv) : Prop :=
  (∀ e, env.rateLimitAvailability = Except.error e → isTransient e = true) ∧
  (∀ e, env.generateUserMessage = Except.error e → isTransient e = true)

theorem automationLoopCatch_not_attempted (st : AutomationState) (e : JsError) :
    (automationLoopCatch st e).chatSendAttempted = false := by
  simp only [automationLoopCatch]
  split_ifs <;> rfl

theorem automationLoopCatch_counter_le (st : AutomationState) (e : JsError)
    (hst : st.consecutiveErrors ≤ MAX_CONSECUTIVE_ERRORS)
    (he : isTransient e = true) :
    (automationLoopCatch st e).state.consecutiveErrors ≤ MAX_CONSECUTIVE_ERRORS := by
  rw [isTransient] at he
  unfold automationLoopCatch
  simp only [he, if_true]
  split_ifs with h1 h2 <;> simp [MAX_CONSECUTIVE_ERRORS] at * <;> omega

theorem automationLoopCycle_counter_le (st : AutomationState) (env : CycleEnv)
    (hst : st.consecutiveErrors ≤ MAX_CONSECUTIVE_ERRORS)
    (henv : envLoopErrorsTransient env) :
    (automationLoopCycle st env).state.consecutiveErrors ≤ MAX_CONSECUTIVE_ERRORS := by
  by_cases h1 : st.isRunning = false
  · simp [automationLoopCycle, h1, hst]
  · by_cases h2 : env.cooldownActive = true
    · simp [automationLoopCycle, h1, h2, hst]
    · rcases hrl : env.rateLimitAvailability with erl | avail
      · simpa [automationLoopCycle, h1, h2, hrl] using
          automationLoopCatch_counter_le st erl hst (henv.1 erl hrl)
      · by_cases h3 : avail = false
        · simp [automationLoopCycle, h1, h2, hrl, h3, hst]
        · rcases hgen : env.generateUserMessage with egen | m
          · simpa [automationLoopCycle, h1, h2, hrl, h3, hgen] using
              automationLoopCatch_counter_le st egen hst (henv.2 egen hgen)
          · rcases hsend : env.sendChatMessage with es | u
            · simp [automationLoopCycle, h1, h2, hrl, h3, hgen, hsend,
                MAX_CONSECUTIVE_ERRORS]
            · simp [automationLoopCycle, h1, h2, hrl, h3, hgen, hsend,
                MAX_CONSECUTIVE_ERRORS]

theorem runTrace_counter_le (envs : List CycleEnv) :
    ∀ st : AutomationState, st.consecutiveErrors ≤ MAX_CONSECUTIVE_ERRORS →
      (∀ env ∈ envs, envLoopErrorsTransient env) →
      (runTrace st envs).consecutiveErrors ≤ MAX_CONSECUTIVE_ERRORS := by
  induction envs with
  | nil => intro st hst _; exact hst
  | cons env rest ih =>
    intro st hst henv
    rw [runTrace]
    exact ih _ (automationLoopCycle_counter_le st env hst (henv env (by simp)))
      (fun e he => henv e (by simp [he]))

/-- A cycle environment in which every external call succeeds. -/
def baseEnv : CycleEnv :=
  { cooldownActive := false
    rateLimitAvailability := Except.ok true
    generateUserMessage := Except.ok "hello"
    sendChatMessage := Except.error ⟨"placeholder", none⟩
    pointsRefresh := Except.ok ()
    rateLimitRefresh := Except.ok ()
    random7000 := ⟨0, by omega⟩ }

/-- A cycle in which only the chat send fails (here with a 500 server
response, a transient-classified error). -/
def chatFailEnv : CycleEnv :=
  { baseEnv with
    sendChatMessage := Except.error ⟨"Request failed with status code 500", some 500⟩ }

/-- A cycle in which the chat send succeeds. -/
def chatOkEnv : CycleEnv :=
  { baseEnv with sendChatMessage := Except.ok () }

/-- A cycle in which message generation throws a terminal-classified
(non-network, non-5xx) error that escapes to the loop's catch block. -/
def terminalLoopErrorEnv : CycleEnv :=
  { baseEnv with generateUserMessage := Except.error ⟨"invalid session token", none⟩ }

/-- The connection-refused error of the C6 scenario. -/
def econnErr : JsError := ⟨"connect ECONNREFUSED 127.0.0.1:443", none⟩

/-- A cycle in which message generation throws `econnErr`. -/
def econnLoopErrorEnv : CycleEnv :=
  { baseEnv with generateUserMessage := Except.error econnErr }

/-- A cycle that observes an active cooldown. -/
def cooldownEnv : CycleEnv :=
  { baseEnv with cooldownActive := true, sendChatMessage := Except.ok () }

/-- Claim C1: the code resets `consecutiveErrors` to 0 on line 200,
after message generation and before every chat send, so a chat-send
failure always raises the counter from 0 to exactly 1 and the
`consecutiveErrors >= MAX_CONSECUTIVE_ERRORS` branch (180-second sleep
and reset) is unreachable through chat-send failures: three consecutive
chat-send-failure cycles each sleep 10 s (never 180 s) and leave the
counter at 1, contradicting the claimed scenario. -/
theorem claim_C1_chat_threshold_unreachable :
    automationLoopCycle ⟨true, 0⟩ chatFailEnv =
      ⟨⟨true, 1⟩, CycleOutcome.nextCycleScheduled 3000, true, [10000]⟩ ∧
    automationLoopCycle ⟨true, 1⟩ chatFailEnv =
      ⟨⟨true, 1⟩, CycleOutcome.nextCycleScheduled 3000, true, [10000]⟩ ∧
    (runTrace ⟨true, 0⟩ [chatFailEnv, chatFailEnv, chatFailEnv]).consecutiveErrors = 1 := by
  decide

/-- Claim C2 counterexample: four consecutive cycles whose loop-level
error is terminal-classified drive the consecutive-error counter to 4,
outside the claimed range `[0, 3]`; every such cycle reschedules the
loop (15-second backoff), so the run continues. -/
theorem claim_C2_counterexample :
    (runTrace ⟨true, 0⟩
      [terminalLoopErrorEnv, terminalLoopErrorEnv, terminalLoopErrorEnv,
        terminalLoopErrorEnv]).consecutiveErrors = 4 ∧
    ¬(runTrace ⟨true, 0⟩
      [terminalLoopErrorEnv, terminalLoopErrorEnv, terminalLoopErrorEnv,
        terminalLoopErrorEnv]).consecutiveErrors ≤ MAX_CONSECUTIVE_ERRORS ∧
    (automationLoopCycle ⟨true, 0⟩ terminalLoopErrorEnv).outcome =
      CycleOutcome.errorRetryScheduled 15000 ∧
    (automationLoopCycle ⟨true, 1⟩ terminalLoopErrorEnv).outcome =
      CycleOutcome.errorRetryScheduled 15000 ∧
    (automationLoopCycle ⟨true, 2⟩ terminalLoopErrorEnv).outcome =
      CycleOutcome.errorRetryScheduled 15000 ∧
    (automationLoopCycle ⟨true, 3⟩ terminalLoopErrorEnv).outcome =
      CycleOutcome.errorRetryScheduled 15000 := by
  decide

/-- Claim C2 (amended): the counter stays in `[0, MAX_CONSECUTIVE_ERRORS]`
across any run of cycles provided every loop-level error is
transient-classified (a terminal-classified loop error increments the
counter with no threshold check, so it can exceed 3); it is reset to 0
by any cycle whose chat send succeeds, and the loop-level 180-second
backoff branch resets it to 0 when it fires. -/
theorem claim_C2_counter_invariant :
    (∀ (st : AutomationState) (envs : List CycleEnv),
      st.consecutiveErrors ≤ MAX_CONSECUTIVE_ERRORS →
      (∀ env ∈ envs, envLoopErrorsTransient env) →
      (runTrace st envs).consecutiveErrors ≤ MAX_CONSECUTIVE_ERRORS) ∧
    (∀ (st : AutomationState) (env : CycleEnv),
      env.sendChatMessage = Except.ok () →
      (automationLoopCycle st env).chatSendAttempted = true →
      (automationLoopCycle st env).state.consecutiveErrors = 0) ∧
    (∀ (st : AutomationState) (e : JsError),
      isTransient e = true →
      MAX_CONSECUTIVE_ERRORS ≤ st.consecutiveErrors + 1 →
      automationLoopCatch st e =
        ⟨⟨st.isRunning, 0⟩, CycleOutcome.errorRetryScheduled 180000, false, []⟩) := by
  refine ⟨fun st envs hst henv => runTrace_counter_le envs st hst henv, ?_, ?_⟩
  · intro st env hsend hatt
    by_cases h1 : st.isRunning = false
    · rw [automationLoopCycle] at hatt
      simp [h1] at hatt
    · by_cases h2 : env.cooldownActive = true
      · rw [automationLoopCycle] at hatt
        simp [h1, h2] at hatt
      · rcases hrl : env.rateLimitAvailability with erl | avail
        · rw [automationLoopCycle] at hatt
          simp [h1, h2, hrl, automationLoopCatch_not_attempted] at hatt
        · by_cases h3 : avail = false
          · rw [automationLoopCycle] at hatt
            simp [h1, h2, hrl, h3] at hatt
          · rcases hgen : env.generateUserMessage with egen | m
            · rw [automationLoopCycle] at hatt
              simp [h1, h2, hrl, h3, hgen, automationLoopCatch_not_attempted] at hatt
            · simp [automationLoopCycle, h1, h2, hrl, h3, hgen, hsend]
  · intro st e he hth
    rw [isTransient] at he
    simp [automationLoopCatch, he, hth]

/-- Claim C2 witness: concrete instances of the three amended parts —
a one-cycle transient-error trace keeps the counter within the
threshold, a successful send resets it from 2 to 0, and a transient
loop error at counter 2 fires the 180-second backoff and resets. -/
theorem claim_C2_witness :
    (runTrace ⟨true, 0⟩ [econnLoopErrorEnv]).consecutiveErrors ≤ MAX_CONSECUTIVE_ERRORS ∧
    (automationLoopCycle ⟨true, 2⟩ chatOkEnv).state.consecutiveErrors = 0 ∧
    automationLoopCatch ⟨true, 2⟩ econnErr =
      ⟨⟨true, 0⟩, CycleOutcome.errorRetryScheduled 180000, false, []⟩ := by
  refine ⟨claim_C2_counter_invariant.1 ⟨true, 0⟩ [econnLoopErrorEnv] (by decide) ?_,
    claim_C2_counter_invariant.2.1 ⟨true, 2⟩ chatOkEnv rfl (by decide),
    claim_C2_counter_invariant.2.2 ⟨true, 2⟩ econnErr (by decide) (by decide)⟩
  intro env henv
  simp only [List.mem_singleton] at henv
  subst henv
  constructor
  · intro e he
    simp [econnLoopErrorEnv, baseEnv] at he
  · intro e he
    simp [econnLoopErrorEnv, baseEnv] at he
    subst he
    decide

/-- Claim C6 counterexample: a loop-level error whose message is
terminal-classified (`"invalid session token"`, no 5xx response) at
counter 0 — a first offense — reschedules after 15000 ms, not the 5000 ms
first rung of the claimed ladder, because the `else` branch of the catch
block applies a flat 15-second backoff to every non-transient error. -/
theorem claim_C6_counterexample :
    (automationLoopCycle ⟨true, 0⟩ terminalLoopErrorEnv).outcome =
      CycleOutcome.errorRetryScheduled 15000 ∧
    CycleOutcome.errorRetryScheduled 15000 ≠ CycleOutcome.errorRetryScheduled 5000 := by
  decide

/-- Claim C6 (amended): every uncaught exception escaping a cycle's
pre-send steps lands in the catch block, which increments the counter
and keeps `isRunning` untouched; the 5 s / 15 s / 180 s-with-reset
ladder applies only when the error is transient-classified (network
message or status ≥ 500) — a terminal-classified loop error always
reschedules after a flat 15 s without the ladder and without a reset.
Two successive `ECONNREFUSED` loop errors hence back off 5 s then 15 s. -/
theorem claim_C6_loop_error_backoff (st : AutomationState) (env : CycleEnv)
    (e : JsError) (hrun : st.isRunning = true) (hcd : env.cooldownActive = false)
    (hrl : env.rateLimitAvailability = Except.ok true)
    (hgen : env.generateUserMessage = Except.error e) :
    automationLoopCycle st env = automationLoopCatch st e ∧
    (automationLoopCatch st e).state.isRunning = st.isRunning ∧
    (isTransient e = true →
      (st.consecutiveErrors = 0 →
        automationLoopCatch st e =
          ⟨⟨st.isRunning, 1⟩, CycleOutcome.errorRetryScheduled 5000, false, []⟩) ∧
      (st.consecutiveErrors = 1 →
        automationLoopCatch st e =
          ⟨⟨st.isRunning, 2⟩, CycleOutcome.errorRetryScheduled 15000, false, []⟩) ∧
      (MAX_CONSECUTIVE_ERRORS ≤ st.consecutiveErrors + 1 →
        automationLoopCatch st e =
          ⟨⟨st.isRunning, 0⟩, CycleOutcome.errorRetryScheduled 180000, false, []⟩)) ∧
    (isTransient e = false →
      automationLoopCatch st e =
        ⟨⟨st.isRunning, st.consecutiveErrors + 1⟩,
          CycleOutcome.errorRetryScheduled 15000, false, []⟩) := by
  refine ⟨?_, ?_, ?_, ?_⟩
  · simp [automationLoopCycle, hrun, hcd, hrl, hgen]
  · simp only [automationLoopCatch]
    split_ifs <;> rfl
  · intro ht
    rw [isTransient] at ht
    refine ⟨?_, ?_, ?_⟩
    · intro hc
      simp [automationLoopCatch, ht, hc, MAX_CONSECUTIVE_ERRORS]
    · intro hc
      simp [automationLoopCatch, ht, hc, MAX_CONSECUTIVE_ERRORS]
    · intro hth
      simp [automationLoopCatch, ht, hth]
  · intro ht
    rw [isTransient] at ht
    simp [automationLoopCatch, ht]

/-- Claim C6 witness: the `ECONNREFUSED` scenario — the loop error lands
in the catch block, a first offense backs off 5 s, and a second
consecutive offense backs off 15 s. -/
theorem claim_C6_witness :
    automationLoopCycle ⟨true, 0⟩ econnLoopErrorEnv =
      automationLoopCatch ⟨true, 0⟩ econnErr ∧
    automationLoopCatch ⟨true, 0⟩ econnErr =
      ⟨⟨true, 1⟩, CycleOutcome.errorRetryScheduled 5000, false, []⟩ ∧
    automationLoopCatch ⟨true, 1⟩ econnErr =
      ⟨⟨true, 2⟩, CycleOutcome.errorRetryScheduled 15000, false, []⟩ :=
  ⟨(claim_C6_loop_error_backoff ⟨true, 0⟩ econnLoopErrorEnv econnErr rfl rfl rfl rfl).1,
    ((claim_C6_loop_error_backoff ⟨true, 0⟩ econnLoopErrorEnv econnErr rfl rfl rfl
      rfl).2.2.1 (by decide)).1 rfl,
    ((claim_C6_loop_error_backoff ⟨true, 1⟩ econnLoopErrorEnv econnErr rfl rfl rfl
      rfl).2.2.1 (by decide)).2.1 rfl⟩

/-- Claim C8 (confirmed): a cycle that observes an active cooldown never
attempts chat-send work, and when the automation is running it leaves
the state untouched and only reschedules the same check after 1000 ms. -/
theorem claim_C8_no_work_during_cooldown (st : AutomationState) (env : CycleEnv)
    (hcd : env.cooldownActive = true) :
    (automationLoopCycle st env).chatSendAttempted = false ∧
    (st.isRunning = true →
      automationLoopCycle st env =
        ⟨st, CycleOutcome.recheckCooldown 1000, false, []⟩) := by
  by_cases h1 : st.isRunning = false
  · constructor
    · simp [automationLoopCycle, h1]
    · intro hr
      simp [h1] at hr
  · have h1' : st.isRunning = true := by simpa using h1
    constructor
    · simp [automationLoopCycle, h1', hcd]
    · intro _
      simp [automationLoopCycle, h1', hcd]

/-- Claim C8 witness: a running cycle under an active cooldown only
reschedules the cooldown check. -/
theorem claim_C8_witness :
    (automationLoopCycle ⟨true, 0⟩ cooldownEnv).chatSendAttempted = false ∧
    automationLoopCycle ⟨true, 0⟩ cooldownEnv =
      ⟨⟨true, 0⟩, CycleOutcome.recheckCooldown 1000, false, []⟩ :=
  ⟨(claim_C8_no_work_during_cooldown ⟨true, 0⟩ cooldownEnv rfl).1,
    (claim_C8_no_work_during_cooldown ⟨true, 0⟩ cooldownEnv rfl).2 rfl⟩

/-- Claim C7 counterexample: `resumeAutomation` invoked while already
running and with no active cooldown is rejected with no state change and
no loop restart — so rejection is not equivalent to the coordinator
being suspended, contradicting the claimed "iff ... regardless of the
current run state". -/
theorem claim_C7_counterexample :
    (resumeAutomation ⟨true, 2⟩ false).state = ⟨true, 2⟩ ∧
    (resumeAutomation ⟨true, 2⟩ false).loopStarted = false := by
  decide

/-- Claim C7 (amended): for calls made while not already running,
`resume()` is rejected with no state change iff the cooldown is active,
and when the cooldown is inactive it transitions to Running (resetting
the counter) and restarts the loop; a call made while already running is
always a no-op, regardless of the cooldown. -/
theorem claim_C7_resume_rules (st : AutomationState) (cd : Bool) :
    (st.isRunning = false →
      (((resumeAutomation st cd).state = st ∧
        (resumeAutomation st cd).loopStarted = false) ↔ cd = true) ∧
      (cd = false →
        resumeAutomation st cd =
          ⟨⟨true, 0⟩, true, [LogLevel.success], false⟩)) ∧
    (st.isRunning = true →
      (resumeAutomation st cd).state = st ∧
      (resumeAutomation st cd).loopStarted = false) := by
  rcases st with ⟨run, c⟩
  cases run <;> cases cd <;> simp [resumeAutomation]

/-- Claim C7 witness: a paused session with an active cooldown is
rejected with no state change. -/
theorem claim_C7_witness :
    (resumeAutomation ⟨false, 1⟩ true).state = ⟨false, 1⟩ ∧
    (resumeAutomation ⟨false, 1⟩ true).loopStarted = false :=
  ((claim_C7_resume_rules ⟨false, 1⟩ true).1 rfl).1.mpr rfl

/-- A startup environment whose awaited steps all succeed. -/
def startOkEnv : StartEnv := ⟨Except.ok ()⟩

/-- A startup environment failing with the terminal authentication
error. -/
def startFailEnv : StartEnv := ⟨Except.error notAuthenticatedErr⟩

/-- Claim C9 (confirmed): a successful `start()` from the stopped state
leaves `⟨running, 0⟩` with the loop started; a second `start()` without
an intervening pause/stop is a no-op that keeps the state, starts no
second loop, and logs exactly one warning (never an error). -/
theorem claim_C9_start_idempotent (st : AutomationState) (env env2 : StartEnv)
    (hstop : st.isRunning = false) (hok : env.startupResult = Except.ok ()) :
    (startAutomation st env).state = ⟨true, 0⟩ ∧
    (startAutomation st env).loopStarted = true ∧
    startAutomation (startAutomation st env).state env2 =
      ⟨(startAutomation st env).state, false, [LogLevel.warning], false⟩ := by
  have h1 : startAutomation st env = ⟨⟨true, 0⟩, true, [LogLevel.info], false⟩ := by
    simp [startAutomation, hstop, hok]
  rw [h1]
  exact ⟨rfl, rfl, by simp [startAutomation]⟩

/-- Claim C9 witness: concrete double start from `⟨stopped, 2⟩`. -/
theorem claim_C9_witness :
    (startAutomation ⟨false, 2⟩ startOkEnv).state = ⟨true, 0⟩ ∧
    (startAutomation ⟨false, 2⟩ startOkEnv).loopStarted = true ∧
    startAutomation (startAutomation ⟨false, 2⟩ startOkEnv).state startOkEnv =
      ⟨(startAutomation ⟨false, 2⟩ startOkEnv).state, false,
        [LogLevel.warning], false⟩ :=
  claim_C9_start_idempotent ⟨false, 2⟩ startOkEnv startOkEnv rfl rfl

/-- Claim C10 (confirmed): a `start()` that proceeds (not already
running) leaves the counter at 0 whatever the startup outcome, and a
successful `resume()` (not running, no cooldown) resets the counter to 0
and re-enters the loop. -/
theorem claim_C10_counter_reset_on_start_resume (st : AutomationState)
    (env : StartEnv) (hstop : st.isRunning = false) :
    (startAutomation st env).state.consecutiveErrors = 0 ∧
    (resumeAutomation st false).state.consecutiveErrors = 0 ∧
    (resumeAutomation st false).loopStarted = true := by
  refine ⟨?_, ?_, ?_⟩
  · rcases henv : env.startupResult with e | u
    · by_cases ht : (isNetworkErrorMessage e || isServerError e) = true
      · simp [startAutomation, hstop, henv, ht]
      · simp [startAutomation, hstop, henv, ht]
    · simp [startAutomation, hstop, henv]
  · simp [resumeAutomation, hstop]
  · simp [resumeAutomation, hstop]

/-- Claim C10 witness: even a failing start from `⟨stopped, 3⟩` zeroes
the counter, and a resume from the same state re-enters the loop with a
zero counter. -/
theorem claim_C10_witness :
    (startAutomation ⟨false, 3⟩ startFailEnv).state.consecutiveErrors = 0 ∧
    (resumeAutomation ⟨false, 3⟩ false).state.consecutiveErrors = 0 ∧
    (resumeAutomation ⟨false, 3⟩ false).loopStarted = true :=
  claim_C10_counter_reset_on_start_resume ⟨false, 3⟩ startFailEnv rfl
